import Mathlib

/-!
Shallow embedding of the immutable-retention policy engine of the
gardener-extension-provider-gcp repository.

The embedded code:
  - pkg/admission/validator/seed.go   : admission-side ParseImmutableSettings,
    validateImmutableSettings, validateCreate, validateUpdate
  - pkg/gcp/client/storage.go         : storage-client-side ParseImmutableSettings

Supporting external semantics (modelled from the Go standard library, which the
source calls):
  - encoding/json unmarshalling of the two anonymous config structs, at the
    level of already-lexed JSON values
  - time.ParseDuration
-/

/-- A JSON value: the result of successfully decoding a raw byte payload. -/
inductive JSON where
  | null
  | bool (b : Bool)
  | num (n : Int)
  | str (s : String)
  | arr (elems : List JSON)
  | obj (fields : List (String × JSON))

/-- The raw provider-config payload (the bytes of a runtime.RawExtension),
abstracted over the byte-level JSON lexer: it is either zero-length, bytes
that are not valid JSON, or bytes that lex to a JSON value. -/
inductive RawPayload where
  | empty
  | malformed (msg : String)
  | jsonValue (v : JSON)

/-- Go time.Duration is an int64 count of nanoseconds; we model it as Int. -/
abbrev Duration := Int

/-- ImmutableSettings represents the settings for immutable storage.
Declared identically in both Go packages (validator and client). -/
structure ImmutableSettings where
  retentionType : String
  retentionPeriod : Duration
deriving DecidableEq

/-- ImmutableSettingsJSON is used for JSON unmarshalling of immutable settings. -/
structure ImmutableSettingsJSON where
  retentionType : String
  retentionPeriod : String
deriving DecidableEq

/-! ### Model of Go time.ParseDuration (src/time/format.go)

Modelled with exact integer arithmetic; Go uses float64 for the fractional
component (`v += uint64(float64(f) * (float64(unit) / scale))`), which we model
as the exact quotient `f * unit / scale`. -/

namespace GoTime

/-- Go strconv-style quoting as used in time package error messages
(plain quoting; escaping of non-printable characters is not modelled). -/
def quote (s : String) : String := "\"" ++ s ++ "\""

/-- leadingInt consumes the leading [0-9]* from s, with the uint64 overflow
checks of Go's leadingInt; none models errLeadingInt. -/
def leadingInt : Nat → List Char → Option (Nat × List Char)
  | x, [] => some (x, [])
  | x, c :: rest =>
    if c.isDigit then
      if x > 2 ^ 63 / 10 then none
      else
        let y := x * 10 + (c.toNat - 48)
        if y > 2 ^ 63 then none
        else leadingInt y rest
    else some (x, c :: rest)

/-- leadingFraction consumes the leading [0-9]* of a fractional part,
returning (digits value, scale = 10 ^ digits kept, rest); digits beyond the
uint64 range are consumed but ignored (the overflow flag). -/
def leadingFraction : Nat → Nat → Bool → List Char → Nat × Nat × List Char
  | x, scale, _, [] => (x, scale, [])
  | x, scale, overflow, c :: rest =>
    if c.isDigit then
      if overflow then leadingFraction x scale true rest
      else if x > (2 ^ 63 - 1) / 10 then leadingFraction x scale true rest
      else
        let y := x * 10 + (c.toNat - 48)
        if y > 2 ^ 63 then leadingFraction x scale true rest
        else leadingFraction y (scale * 10) false rest
    else (x, scale, c :: rest)

/-- The unit table of time.ParseDuration, in nanoseconds. -/
def unitMap : String → Option Nat
  | "ns" => some 1
  | "us" => some 1000
  | "µs" => some 1000
  | "μs" => some 1000
  | "ms" => some 1000000
  | "s" => some 1000000000
  | "m" => some 60000000000
  | "h" => some 3600000000000
  | _ => none

/-- Splits off the maximal leading run of characters that are neither a digit
nor a dot: the unit name of the current component. -/
def takeUnit : List Char → List Char × List Char
  | [] => ([], [])
  | c :: rest =>
    if c = '.' ∨ c.isDigit then ([], c :: rest)
    else
      let (u, r) := takeUnit rest
      (c :: u, r)

/-- The main loop of ParseDuration: repeatedly consume one
([0-9]*(\.[0-9]*)?unit) component, accumulating nanoseconds in d.
Fuel bounds the recursion; each successful iteration consumes at least the
unit character, so fuel = length + 1 never runs out. -/
def durLoop (orig : String) : Nat → Nat → List Char → Except String Nat
  | 0, _, _ => .error ("time: invalid duration " ++ quote orig)
  | _, d, [] => .ok d
  | fuel + 1, d, c :: cs =>
    if ¬(c = '.' ∨ c.isDigit) then .error ("time: invalid duration " ++ quote orig)
    else
      match leadingInt 0 (c :: cs) with
      | none => .error ("time: invalid duration " ++ quote orig)
      | some (v, s1) =>
        let pre : Bool := s1.length ≠ (c :: cs).length
        let fps :=
          match s1 with
          | '.' :: rest =>
            let (f, scale, s2) := leadingFraction 0 1 false rest
            (f, scale, s2, decide (s2.length ≠ rest.length))
          | _ => (0, 1, s1, false)
        let f := fps.1
        let scale := fps.2.1
        let s2 := fps.2.2.1
        let post := fps.2.2.2
        if ¬pre ∧ ¬post then .error ("time: invalid duration " ++ quote orig)
        else
          let ur := takeUnit s2
          if ur.1.length = 0 then .error ("time: missing unit in duration " ++ quote orig)
          else
            match unitMap (String.mk ur.1) with
            | none =>
              .error ("time: unknown unit " ++ quote (String.mk ur.1) ++
                " in duration " ++ quote orig)
            | some unit =>
              if v > 2 ^ 63 / unit then .error ("time: invalid duration " ++ quote orig)
              else
                let v1 := v * unit
                let v2 := if f > 0 then v1 + f * unit / scale else v1
                if f > 0 ∧ v2 > 2 ^ 63 then .error ("time: invalid duration " ++ quote orig)
                else
                  let d1 := d + v2
                  if d1 > 2 ^ 63 then .error ("time: invalid duration " ++ quote orig)
                  else durLoop orig fuel d1 ur.2

/-- Model of Go time.ParseDuration: parses [-+]?([0-9]*(\.[0-9]*)?[a-z]+)+
into nanoseconds, or fails with the time package's error message. -/
def ParseDuration (s : String) : Except String Duration :=
  let orig := s
  let cs0 := s.toList
  let signed :=
    match cs0 with
    | '-' :: rest => (true, rest)
    | '+' :: rest => (false, rest)
    | _ => (false, cs0)
  let neg := signed.1
  let cs := signed.2
  if cs = ['0'] then .ok 0
  else if cs = [] then .error ("time: invalid duration " ++ quote orig)
  else
    match durLoop orig (cs.length + 1) 0 cs with
    | .error e => .error e
    | .ok d =>
      if neg then .ok (-(Int.ofNat d))
      else if d > 2 ^ 63 - 1 then .error ("time: invalid duration " ++ quote orig)
      else .ok (Int.ofNat d)

end GoTime

/-! ### Model of encoding/json unmarshalling for the two config structs -/

/-- Looks up a key among the fields of a JSON object; as in encoding/json,
when a key occurs more than once the later occurrence wins. -/
def lookupField (fields : List (String × JSON)) (key : String) : Option JSON :=
  fields.foldl (fun acc kv => if kv.1 = key then some kv.2 else acc) none

/-- Decoding a JSON value into a Go string struct field: an absent field or a
JSON null leaves the zero value "", a JSON string is taken verbatim, and any
other value is a decode type error. -/
def decodeStringField (fields : List (String × JSON)) (key : String) :
    Except String String :=
  match lookupField fields key with
  | none => .ok ""
  | some .null => .ok ""
  | some (.str s) => .ok s
  | some _ => .error ("json: cannot unmarshal value into Go struct field " ++ key)

/-- Decoding a JSON value into an ImmutableSettingsJSON struct: null is a
no-op (zero value), an object decodes the two string fields, anything else is
a decode type error. -/
def decodeImmutableSettingsJSON (v : JSON) : Except String ImmutableSettingsJSON :=
  match v with
  | .null => .ok ⟨"", ""⟩
  | .obj fields =>
    match decodeStringField fields "retentionType" with
    | .error e => .error e
    | .ok rt =>
      match decodeStringField fields "retentionPeriod" with
      | .error e => .error e
      | .ok rp => .ok ⟨rt, rp⟩
  | _ => .error "json: cannot unmarshal value into Go struct ImmutableSettingsJSON"

namespace validator

/-- json.Unmarshal of the raw payload into the admission-side anonymous
config struct, whose single field is the POINTER
`ImmutableSettings *ImmutableSettingsJSON`: a top-level null is a no-op, an
absent immutableSettings key or a null value leaves the pointer nil (none). -/
def unmarshalConfig (v : JSON) : Except String (Option ImmutableSettingsJSON) :=
  match v with
  | .null => .ok none
  | .obj fields =>
    match lookupField fields "immutableSettings" with
    | none => .ok none
    | some .null => .ok none
    | some w => (decodeImmutableSettingsJSON w).map some
  | _ => .error "json: cannot unmarshal value into Go struct"

/-- ParseImmutableSettings decodes providerConfig into ImmutableSettings
(pkg/admission/validator/seed.go). The Option on the argument models the
nil RawExtension pointer. -/
def ParseImmutableSettings (providerConfig : Option RawPayload) :
    Except String (Option ImmutableSettings) :=
  match providerConfig with
  | none => .ok none
  | some .empty => .ok none
  | some (.malformed msg) => .error ("error while parsing immutable settings: " ++ msg)
  | some (.jsonValue v) =>
    match unmarshalConfig v with
    | .error msg => .error ("error while parsing immutable settings: " ++ msg)
    | .ok none => .ok none
    | .ok (some j) =>
      match GoTime.ParseDuration j.retentionPeriod with
      | .error msg => .error ("invalid retentionPeriod format: " ++ msg)
      | .ok duration => .ok (some ⟨j.retentionType, duration⟩)

/-- validateImmutableSettings performs additional checks on ImmutableSettings
(pkg/admission/validator/seed.go). -/
def validateImmutableSettings (imSettings : ImmutableSettings) : Except String Unit :=
  if imSettings.retentionType ≠ "bucket" then
    .error ("invalid retentionType '" ++ imSettings.retentionType ++ "'; must be 'bucket'")
  else if imSettings.retentionPeriod ≤ 0 then
    .error "retentionPeriod must be greater than zero"
  else .ok ()

/-- validateCreate validates the Seed object upon creation
(pkg/admission/validator/seed.go); the argument is the new Seed's
spec.backup.providerConfig. -/
def validateCreate (providerConfig : Option RawPayload) : Except String Unit :=
  match ParseImmutableSettings providerConfig with
  | .error e => .error ("error parsing immutable settings: " ++ e)
  | .ok none => .ok ()
  | .ok (some newImSettings) => validateImmutableSettings newImSettings

/-- validateUpdate checks that certain fields in a Seed's backup configuration
are immutable when specified (pkg/admission/validator/seed.go); the arguments
are the old and new Seeds' spec.backup.providerConfig. -/
def validateUpdate (oldPc newPc : Option RawPayload) : Except String Unit :=
  match ParseImmutableSettings oldPc with
  | .error e => .error ("error parsing old immutable settings: " ++ e)
  | .ok oldImSettings =>
    match ParseImmutableSettings newPc with
    | .error e => .error ("error parsing new immutable settings: " ++ e)
    | .ok newImSettings =>
      match newImSettings, oldImSettings with
      | none, some _ => .error "disabling immutable settings is not allowed"
      | some n, some o =>
        if n.retentionPeriod < o.retentionPeriod then
          .error "reducing the retention period is not allowed"
        else if n.retentionType ≠ o.retentionType then
          .error "modifying the retention type is not allowed"
        else .ok ()
      | some n, none => validateImmutableSettings n
      | none, none => .ok ()

end validator

namespace storageclient

/-- json.Unmarshal of the raw payload into the storage-client-side anonymous
config struct, whose single field is the VALUE
`ImmutableSettings ImmutableSettingsJSON`: an absent immutableSettings key or
a null value leaves the zero struct. -/
def unmarshalConfig (v : JSON) : Except String ImmutableSettingsJSON :=
  match v with
  | .null => .ok ⟨"", ""⟩
  | .obj fields =>
    match lookupField fields "immutableSettings" with
    | none => .ok ⟨"", ""⟩
    | some w => decodeImmutableSettingsJSON w
  | _ => .error "json: cannot unmarshal value into Go struct"

/-- ParseImmutableSettings decodes providerConfig into ImmutableSettings
(pkg/gcp/client/storage.go). Unlike the admission-side parser it rejects an
absent or empty payload and applies the retentionType check itself. -/
def ParseImmutableSettings (providerConfig : Option RawPayload) :
    Except String ImmutableSettings :=
  match providerConfig with
  | none => .error "providerConfig is either empty or nil"
  | some .empty => .error "providerConfig is either empty or nil"
  | some (.malformed msg) => .error ("error while parsing immutable settings: " ++ msg)
  | some (.jsonValue v) =>
    match unmarshalConfig v with
    | .error msg => .error ("error while parsing immutable settings: " ++ msg)
    | .ok j =>
      if j.retentionType ≠ "bucket" then
        .error ("invalid retentionType '" ++ j.retentionType ++ "'; must be 'bucket'")
      else
        match GoTime.ParseDuration j.retentionPeriod with
        | .error msg => .error ("invalid retentionPeriod format: " ++ msg)
        | .ok duration => .ok ⟨j.retentionType, duration⟩

end storageclient

/-! ### Helper definitions and lemmas shared by the claims -/

/-- A providerConfig payload carrying the given retentionType and
retentionPeriod strings, in the shape used by the repository's fixtures. -/
def mkConfig (t p : String) : Option RawPayload :=
  some (.jsonValue (.obj [("immutableSettings",
    .obj [("retentionType", .str t), ("retentionPeriod", .str p)])]))

/-- Two strings whose first characters differ are different. -/
theorem ne_of_head_ne (s t : String) (h : s.data.head? ≠ t.data.head?) : s ≠ t :=
  fun he => h (congrArg (fun u => u.data.head?) he)

/-! ### The claims -/

/-- C1: whenever the old providerConfig parses to a present settings value and
the new one parses to none, validateUpdate rejects with "disabling immutable
settings is not allowed", whatever the old settings are (shape-valid or not). -/
theorem update_disabling_always_rejected (oldPc newPc : Option RawPayload)
    (o : ImmutableSettings)
    (ho : validator.ParseImmutableSettings oldPc = .ok (some o))
    (hn : validator.ParseImmutableSettings newPc = .ok none) :
    validator.validateUpdate oldPc newPc =
      .error "disabling immutable settings is not allowed" := by
  simp [validator.validateUpdate, ho, hn]

/-- C1 witness: a shape-invalid old settings value (retentionType "weird",
negative period) with an absent new payload is still rejected as disabling. -/
theorem update_disabling_always_rejected_witness :
    validator.ParseImmutableSettings (mkConfig "weird" "-5h") =
      .ok (some ⟨"weird", -18000000000000⟩) ∧
    validator.ParseImmutableSettings none = .ok none ∧
    validator.validateUpdate (mkConfig "weird" "-5h") none =
      .error "disabling immutable settings is not allowed" :=
  ⟨rfl, rfl,
    update_disabling_always_rejected (mkConfig "weird" "-5h") none
      ⟨"weird", -18000000000000⟩ rfl rfl⟩

/-- C2: with both sides present and the retentionType unchanged, validateUpdate
rejects with "reducing the retention period is not allowed" exactly when the
new period is strictly smaller, and accepts when it is at least the old one:
the outcome is monotone in the new period. -/
theorem update_period_monotone (oldPc newPc : Option RawPayload)
    (o n : ImmutableSettings)
    (ho : validator.ParseImmutableSettings oldPc = .ok (some o))
    (hn : validator.ParseImmutableSettings newPc = .ok (some n))
    (hty : n.retentionType = o.retentionType) :
    (n.retentionPeriod < o.retentionPeriod →
      validator.validateUpdate oldPc newPc =
        .error "reducing the retention period is not allowed") ∧
    (o.retentionPeriod ≤ n.retentionPeriod →
      validator.validateUpdate oldPc newPc = .ok ()) := by
  constructor
  · intro hlt
    simp [validator.validateUpdate, ho, hn, hlt]
  · intro hge
    simp [validator.validateUpdate, ho, hn, not_lt.mpr hge, hty]

/-- C2 witness: reducing 96h to 48h (same type) is rejected. -/
theorem update_period_monotone_witness :
    validator.validateUpdate (mkConfig "bucket" "96h") (mkConfig "bucket" "48h") =
      .error "reducing the retention period is not allowed" :=
  (update_period_monotone (mkConfig "bucket" "96h") (mkConfig "bucket" "48h")
    ⟨"bucket", 345600000000000⟩ ⟨"bucket", 172800000000000⟩ rfl rfl rfl).1 (by decide)

/-- C3: with both sides present, a reduced period is reported as "reducing the
retention period is not allowed" even when the retentionType also changed, and
the "modifying the retention type is not allowed" error can only be returned
when the period check passed (new period at least the old one). -/
theorem update_period_error_precedes_type_error (oldPc newPc : Option RawPayload)
    (o n : ImmutableSettings)
    (ho : validator.ParseImmutableSettings oldPc = .ok (some o))
    (hn : validator.ParseImmutableSettings newPc = .ok (some n)) :
    (n.retentionPeriod < o.retentionPeriod →
      validator.validateUpdate oldPc newPc =
        .error "reducing the retention period is not allowed") ∧
    (validator.validateUpdate oldPc newPc =
        .error "modifying the retention type is not allowed" →
      o.retentionPeriod ≤ n.retentionPeriod) := by
  constructor
  · intro hlt
    simp [validator.validateUpdate, ho, hn, hlt]
  · intro heq
    by_contra hc
    push_neg at hc
    rw [show validator.validateUpdate oldPc newPc =
        .error "reducing the retention period is not allowed" by
      simp [validator.validateUpdate, ho, hn, hc]] at heq
    simp at heq

/-- C3 witness: period reduced and type changed simultaneously reports the
period error, not the type error. -/
theorem update_period_error_precedes_type_error_witness :
    validator.validateUpdate (mkConfig "bucket" "96h") (mkConfig "bar" "48h") =
      .error "reducing the retention period is not allowed" :=
  (update_period_error_precedes_type_error
    (mkConfig "bucket" "96h") (mkConfig "bar" "48h")
    ⟨"bucket", 345600000000000⟩ ⟨"bar", 172800000000000⟩ rfl rfl).1 (by decide)

/-- C4: with both sides present, an unreduced period and an unchanged
retentionType, validateUpdate accepts, with no shape validation applied: in
particular an update whose two sides parse to the same (even shape-invalid)
settings value succeeds. -/
theorem update_accepts_unreduced_unchanged (oldPc newPc : Option RawPayload)
    (o n : ImmutableSettings)
    (ho : validator.ParseImmutableSettings oldPc = .ok (some o))
    (hn : validator.ParseImmutableSettings newPc = .ok (some n))
    (hper : ¬n.retentionPeriod < o.retentionPeriod)
    (hty : n.retentionType = o.retentionType) :
    validator.validateUpdate oldPc newPc = .ok () := by
  simp [validator.validateUpdate, ho, hn, hper, hty]

/-- C4 witness: an update between identical shape-invalid settings
(retentionType "weird", negative period) is accepted. -/
theorem update_accepts_unreduced_unchanged_witness :
    validator.validateUpdate (mkConfig "weird" "-5h") (mkConfig "weird" "-5h") = .ok () :=
  update_accepts_unreduced_unchanged (mkConfig "weird" "-5h") (mkConfig "weird" "-5h")
    ⟨"weird", -18000000000000⟩ ⟨"weird", -18000000000000⟩ rfl rfl (by decide) rfl

/-- C5: an absent (nil) providerConfig, a zero-length payload, and a JSON
object without an immutableSettings key all parse to none with no error on the
admission side, and create validation over each of them accepts. -/
theorem parse_absent_empty_missing_is_none (fields : List (String × JSON))
    (h : lookupField fields "immutableSettings" = none) :
    validator.ParseImmutableSettings none = .ok none ∧
    validator.ParseImmutableSettings (some .empty) = .ok none ∧
    validator.ParseImmutableSettings (some (.jsonValue (.obj fields))) = .ok none ∧
    validator.validateCreate none = .ok () ∧
    validator.validateCreate (some .empty) = .ok () ∧
    validator.validateCreate (some (.jsonValue (.obj fields))) = .ok () := by
  refine ⟨rfl, rfl, ?_, rfl, rfl, ?_⟩
  · simp [validator.ParseImmutableSettings, validator.unmarshalConfig, h]
  · simp [validator.validateCreate, validator.ParseImmutableSettings,
      validator.unmarshalConfig, h]

/-- C5 witness: a JSON object with only an unrelated key parses to none and is
accepted on creation. -/
theorem parse_absent_empty_missing_is_none_witness :
    validator.ParseImmutableSettings
      (some (.jsonValue (.obj [("other", JSON.num 1)]))) = .ok none ∧
    validator.validateCreate
      (some (.jsonValue (.obj [("other", JSON.num 1)]))) = .ok () :=
  ⟨(parse_absent_empty_missing_is_none [("other", JSON.num 1)] rfl).2.2.1,
   (parse_absent_empty_missing_is_none [("other", JSON.num 1)] rfl).2.2.2.2.2⟩

/-- C6: when the immutableSettings key holds an object whose two string fields
decode to rt and rp, the admission-side parse returns the settings verbatim
(rt unchecked, any parsed duration accepted, zero and negative included) when
rp parses as a duration, and fails with "invalid retentionPeriod format: "
followed by the decoder complaint when it does not. -/
theorem parse_present_copies_verbatim (fields f2 : List (String × JSON))
    (rt rp : String)
    (hlk : lookupField fields "immutableSettings" = some (.obj f2))
    (hrt : decodeStringField f2 "retentionType" = .ok rt)
    (hrp : decodeStringField f2 "retentionPeriod" = .ok rp) :
    (∀ d, GoTime.ParseDuration rp = .ok d →
      validator.ParseImmutableSettings (some (.jsonValue (.obj fields))) =
        .ok (some ⟨rt, d⟩)) ∧
    (∀ msg, GoTime.ParseDuration rp = .error msg →
      validator.ParseImmutableSettings (some (.jsonValue (.obj fields))) =
        .error ("invalid retentionPeriod format: " ++ msg)) := by
  constructor <;> intro x hx <;>
    simp [validator.ParseImmutableSettings, validator.unmarshalConfig, hlk,
      decodeImmutableSettingsJSON, Except.map, hrt, hrp, hx]

/-- C6 witness: retentionType "foo" with the negative duration "-96h" is
returned verbatim; the unparseable "invalid" gives the format error. -/
theorem parse_present_copies_verbatim_witness :
    validator.ParseImmutableSettings (mkConfig "foo" "-96h") =
      .ok (some ⟨"foo", -345600000000000⟩) ∧
    validator.ParseImmutableSettings (mkConfig "foo" "invalid") =
      .error ("invalid retentionPeriod format: " ++
        "time: invalid duration \"invalid\"") :=
  ⟨(parse_present_copies_verbatim
      [("immutableSettings", .obj [("retentionType", .str "foo"),
        ("retentionPeriod", .str "-96h")])]
      [("retentionType", .str "foo"), ("retentionPeriod", .str "-96h")]
      "foo" "-96h" rfl rfl rfl).1 (-345600000000000) rfl,
   (parse_present_copies_verbatim
      [("immutableSettings", .obj [("retentionType", .str "foo"),
        ("retentionPeriod", .str "invalid")])]
      [("retentionType", .str "foo"), ("retentionPeriod", .str "invalid")]
      "foo" "invalid" rfl rfl rfl).2 "time: invalid duration \"invalid\"" rfl⟩

/-- C7: validateImmutableSettings checks retentionType before retentionPeriod:
a type other than "bucket" (empty string included) is rejected with a message
carrying the offending value; otherwise a non-positive period is rejected with
"retentionPeriod must be greater than zero"; otherwise it accepts. It is the
check applied on creation with settings present and on update when the old
side parses to none and the new side to present settings. -/
theorem shape_validation_order (s : ImmutableSettings) :
    (s.retentionType ≠ "bucket" →
      validator.validateImmutableSettings s =
        .error ("invalid retentionType '" ++ s.retentionType ++ "'; must be 'bucket'")) ∧
    (s.retentionType = "bucket" → s.retentionPeriod ≤ 0 →
      validator.validateImmutableSettings s =
        .error "retentionPeriod must be greater than zero") ∧
    (s.retentionType = "bucket" → 0 < s.retentionPeriod →
      validator.validateImmutableSettings s = .ok ()) ∧
    (∀ pc, validator.ParseImmutableSettings pc = .ok (some s) →
      validator.validateCreate pc = validator.validateImmutableSettings s) ∧
    (∀ pcOld pcNew, validator.ParseImmutableSettings pcOld = .ok none →
      validator.ParseImmutableSettings pcNew = .ok (some s) →
      validator.validateUpdate pcOld pcNew = validator.validateImmutableSettings s) := by
  refine ⟨fun hty => ?_, fun hty hper => ?_, fun hty hper => ?_,
    fun pc hpc => ?_, fun pcOld pcNew hpo hpn => ?_⟩
  · simp [validator.validateImmutableSettings, hty]
  · simp [validator.validateImmutableSettings, hty, hper]
  · simp [validator.validateImmutableSettings, hty, not_le.mpr hper]
  · simp [validator.validateCreate, hpc]
  · simp [validator.validateUpdate, hpo, hpn]

/-- C7 witness: the empty retentionType is rejected with the type message even
though the period is also non-positive (type checked first). -/
theorem shape_validation_order_witness :
    validator.validateImmutableSettings ⟨"", -3600000000000⟩ =
      .error ("invalid retentionType '" ++ "" ++ "'; must be 'bucket'") :=
  (shape_validation_order ⟨"", -3600000000000⟩).1 (by decide)

/-- C8: the storage-client-side parse rejects an absent or zero-length payload
with "providerConfig is either empty or nil" and never succeeds on it. -/
theorem storage_parse_rejects_absent (pc : Option RawPayload)
    (h : pc = none ∨ pc = some .empty) :
    storageclient.ParseImmutableSettings pc =
      .error "providerConfig is either empty or nil" ∧
    ∀ r, storageclient.ParseImmutableSettings pc ≠ .ok r := by
  rcases h with h | h <;> subst h <;>
    exact ⟨rfl, fun r hr => by simp [storageclient.ParseImmutableSettings] at hr⟩

/-- C8 witness: the nil providerConfig is rejected. -/
theorem storage_parse_rejects_absent_witness :
    storageclient.ParseImmutableSettings none =
      .error "providerConfig is either empty or nil" :=
  (storage_parse_rejects_absent none (Or.inl rfl)).1

/-- C9: when immutableSettings is present but its retentionPeriod is absent or
the empty string, the admission-side parse fails on the empty duration string
with the retentionPeriod format error — so create validation never reports an
invalid-retentionType error for such a payload — while an explicit
immutableSettings null is parsed as none, like an absent field. -/
theorem missing_period_fails_before_type_check (fields f2 : List (String × JSON))
    (rt : String)
    (hlk : lookupField fields "immutableSettings" = some (.obj f2))
    (hrt : decodeStringField f2 "retentionType" = .ok rt)
    (hrp : lookupField f2 "retentionPeriod" = none ∨
      lookupField f2 "retentionPeriod" = some (.str "")) :
    validator.ParseImmutableSettings (some (.jsonValue (.obj fields))) =
      .error "invalid retentionPeriod format: time: invalid duration \"\"" ∧
    validator.validateCreate (some (.jsonValue (.obj fields))) =
      .error "error parsing immutable settings: invalid retentionPeriod format: time: invalid duration \"\"" ∧
    (∀ t, validator.validateCreate (some (.jsonValue (.obj fields))) ≠
      .error ("invalid retentionType '" ++ t ++ "'; must be 'bucket'")) ∧
    validator.ParseImmutableSettings
      (some (.jsonValue (.obj [("immutableSettings", JSON.null)]))) = .ok none := by
  have hrp0 : decodeStringField f2 "retentionPeriod" = .ok "" := by
    rcases hrp with h | h <;> simp [decodeStringField, h]
  have hparse : validator.ParseImmutableSettings (some (.jsonValue (.obj fields))) =
      .error "invalid retentionPeriod format: time: invalid duration \"\"" := by
    simp [validator.ParseImmutableSettings, validator.unmarshalConfig, hlk,
      decodeImmutableSettingsJSON, hrt, hrp0]
    rfl
  have hcreate : validator.validateCreate (some (.jsonValue (.obj fields))) =
      .error "error parsing immutable settings: invalid retentionPeriod format: time: invalid duration \"\"" := by
    simp [validator.validateCreate, hparse]
  refine ⟨hparse, hcreate, fun t he => ?_, rfl⟩
  rw [hcreate] at he
  simp only [Except.error.injEq] at he
  exact ne_of_head_ne _ _ (by simp [String.data_append]) he

/-- C9 witness: the payload whose immutableSettings object carries only
retentionType "foo" fails with the empty-duration format error. -/
theorem missing_period_fails_before_type_check_witness :
    validator.ParseImmutableSettings
      (some (.jsonValue (.obj [("immutableSettings",
        .obj [("retentionType", .str "foo")])]))) =
      .error "invalid retentionPeriod format: time: invalid duration \"\"" :=
  (missing_period_fails_before_type_check
    [("immutableSettings", .obj [("retentionType", .str "foo")])]
    [("retentionType", .str "foo")] "foo" rfl rfl (Or.inl rfl)).1

/-- C10: the storage-client-side parse itself rejects a retentionType other
than "bucket" with the invalid-retentionType message, but applies no
positivity check to the duration: with retentionType "bucket" any parseable
duration, non-positive included, yields success carrying that period. -/
theorem storage_parse_type_checked_period_unchecked (fields f2 : List (String × JSON))
    (rt rp : String)
    (hlk : lookupField fields "immutableSettings" = some (.obj f2))
    (hrt : decodeStringField f2 "retentionType" = .ok rt)
    (hrp : decodeStringField f2 "retentionPeriod" = .ok rp) :
    (rt ≠ "bucket" →
      storageclient.ParseImmutableSettings (some (.jsonValue (.obj fields))) =
        .error ("invalid retentionType '" ++ rt ++ "'; must be 'bucket'")) ∧
    (∀ d, rt = "bucket" → GoTime.ParseDuration rp = .ok d →
      storageclient.ParseImmutableSettings (some (.jsonValue (.obj fields))) =
        .ok ⟨"bucket", d⟩) := by
  constructor
  · intro hne
    simp [storageclient.ParseImmutableSettings, storageclient.unmarshalConfig, hlk,
      decodeImmutableSettingsJSON, hrt, hrp, hne]
  · intro d hb hd
    subst hb
    simp [storageclient.ParseImmutableSettings, storageclient.unmarshalConfig, hlk,
      decodeImmutableSettingsJSON, hrt, hrp, hd]

/-- C10 witness: retentionType "bucket" with duration "-96h" succeeds carrying
the negative period, and "0s" succeeds carrying zero. -/
theorem storage_parse_type_checked_period_unchecked_witness :
    storageclient.ParseImmutableSettings (mkConfig "bucket" "-96h") =
      .ok ⟨"bucket", -345600000000000⟩ ∧
    storageclient.ParseImmutableSettings (mkConfig "bucket" "0s") =
      .ok ⟨"bucket", 0⟩ :=
  ⟨(storage_parse_type_checked_period_unchecked
      [("immutableSettings", .obj [("retentionType", .str "bucket"),
        ("retentionPeriod", .str "-96h")])]
      [("retentionType", .str "bucket"), ("retentionPeriod", .str "-96h")]
      "bucket" "-96h" rfl rfl rfl).2 (-345600000000000) rfl rfl,
   (storage_parse_type_checked_period_unchecked
      [("immutableSettings", .obj [("retentionType", .str "bucket"),
        ("retentionPeriod", .str "0s")])]
      [("retentionType", .str "bucket"), ("retentionPeriod", .str "0s")]
      "bucket" "0s" rfl rfl rfl).2 0 rfl rfl⟩
